import Mathlib

/-!
# Verification of the stockai quote-distribution and price-alert core

Shallow embedding of `internal/api/websocket_handlers.go` (`handleWebSocket`,
`checkPriceAlerts`) and `backend/internal/api/handlers.go` (`handleAnalyze`),
together with the parts of the alert store the evaluator calls.

Prices are modelled as integer cents (`Int`): every price appearing in the
spec and the handlers is an exact two-decimal value, and on such values the
Go `float64` comparisons `>=` / `<=` coincide with the integer comparisons
used here.  Go channels, goroutine interleavings and store failures are made
explicit: a schedule chooses which receiver of a shared channel gets each
item, and error injection lists say which store calls fail.
-/

/-- `models.Quote` as consumed by the handlers: symbol and price
(price in cents). -/
structure Quote where
  symbol : String
  price : Int
deriving DecidableEq, Repr

/-- `models.Alert` as consumed by `checkPriceAlerts`: id, symbol,
condition (`"above"` / `"below"`), threshold price (field `Price` in Go,
in cents) and the active flag read by the store. -/
structure Alert where
  id : Nat
  symbol : String
  condition : String
  price : Int
  active : Bool
deriving DecidableEq, Repr

/-- `models.Notification` as built by the handlers:
`kind`/`title`/`message`/`symbol` correspond to Go fields
`Type`/`Title`/`Message`/`Symbol`. -/
structure Notification where
  kind : String
  title : String
  message : String
  symbol : String
deriving DecidableEq, Repr

/-- Two-digit zero padding for the cents part of a price. -/
def pad2 (n : Nat) : String :=
  if n < 10 then "0" ++ toString n else toString n

/-- Rendering of a non-negative amount of cents as Go's `%.2f` renders the
corresponding dollar value. -/
def formatPriceNat (n : Nat) : String :=
  toString (n / 100) ++ "." ++ pad2 (n % 100)

/-- Rendering of a price in cents as Go's `%.2f` renders the corresponding
dollar `float64`. -/
def formatPrice (cents : Int) : String :=
  if cents < 0 then "-" ++ formatPriceNat (-cents).toNat
  else formatPriceNat cents.toNat

/-- The alert store's state: the alert records, owned by the external db
layer. -/
structure StoreState where
  alerts : List Alert
deriving DecidableEq, Repr

/-- Modelled from the spec: `db.GetActiveAlerts` (the db layer is not under
`src/`).  §4.4: "Deactivated/deleted alerts (external state) are simply
absent from the 'active alerts' read"; §3: an Alert carries an active flag.
So the read returns exactly the records whose active flag is set. -/
def getActiveAlerts (st : StoreState) : List Alert :=
  st.alerts.filter (fun a => a.active)

/-- Modelled from the spec: `db.TriggerAlert` (the db layer is not under
`src/`).  §3: "An Alert transitions active→triggered"; §8: subsequent ticks
trigger nothing "until A is reset to active by an external actor".  So the
mutation clears the active flag of the given alert. -/
def triggerAlert (st : StoreState) (id : Nat) : StoreState :=
  { alerts := st.alerts.map (fun a => if a.id = id then { a with active := false } else a) }

/-- Modelled from the spec: the fallible form of `db.TriggerAlert`.
`errIds` injects failures: a call for an id in `errIds` returns an error and
leaves the store unchanged. -/
def triggerAlertOp (errIds : List Nat) (st : StoreState) (id : Nat) :
    StoreState × Bool :=
  if id ∈ errIds then (st, false) else (triggerAlert st id, true)

/-- The `triggered` switch of `checkPriceAlerts` (websocket_handlers.go
lines 126-132): `case "above"` tests `quote.Price >= alert.Price`,
`case "below"` tests `quote.Price <= alert.Price`, and the Go switch has no
default, leaving `triggered` false for any other condition string. -/
def alertTriggered (a : Alert) (q : Quote) : Bool :=
  if a.condition = "above" then a.price ≤ q.price
  else if a.condition = "below" then q.price ≤ a.price
  else false

/-- The notification literal built at websocket_handlers.go lines 136-141. -/
def mkAlertNote (a : Alert) (q : Quote) : Notification :=
  { kind := "price_alert"
    title := "Price Alert: " ++ a.symbol
    message := a.symbol ++ " is now $" ++ formatPrice q.price ++
      " (" ++ a.condition ++ " $" ++ formatPrice a.price ++ ")"
    symbol := a.symbol }

/-- Observable events of the alert-evaluation loop, in program order:
the `TriggerAlert` store call (with its success bit) and the dispatch of a
notification; each carries the id of the alert it concerns. -/
inductive Ev where
  | flag (id : Nat) (ok : Bool)
  | notify (id : Nat) (note : Notification)
deriving DecidableEq, Repr

/-- The body of the `for _, alert := range alerts` iteration for one alert
(websocket_handlers.go lines 121-143): skip on symbol mismatch, compute
`triggered`, and if set call `TriggerAlert` and then dispatch the
notification.  The Go code discards `TriggerAlert`'s error, so the notify
event is emitted whatever the flag call returned. -/
def processAlert (errIds : List Nat) (q : Quote) (st : StoreState) (a : Alert) :
    StoreState × List Ev :=
  if a.symbol ≠ q.symbol then (st, [])
  else if alertTriggered a q then
    let r := triggerAlertOp errIds st a.id
    (r.1, [Ev.flag a.id r.2, Ev.notify a.id (mkAlertNote a q)])
  else (st, [])

/-- The `for _, alert := range alerts` loop over the snapshot returned by
`GetActiveAlerts`, threading the store state and appending each alert's
events in iteration order. -/
def processAlerts (errIds : List Nat) (q : Quote) (st : StoreState) :
    List Alert → StoreState × List Ev
  | [] => (st, [])
  | a :: rest =>
    let r := processAlert errIds q st a
    let r2 := processAlerts errIds q r.1 rest
    (r2.1, r.2 ++ r2.2)

/-- One iteration of `checkPriceAlerts` for one received quote
(websocket_handlers.go lines 115-144): read the active alerts — `readErr`
injects a `GetActiveAlerts` failure, on which the code does `continue`,
producing nothing — then run the range loop over the snapshot. -/
def processTick (errIds : List Nat) (readErr : Bool) (q : Quote) (st : StoreState) :
    StoreState × List Ev :=
  if readErr then (st, [])
  else processAlerts errIds q st (getActiveAlerts st)

/-- The `checkPriceAlerts` loop run over a finite sequence of received
quotes, each paired with whether its `GetActiveAlerts` read fails.  Returns
the final store state and, per tick, the list of events that tick produced. -/
def checkPriceAlerts (errIds : List Nat) (st : StoreState) :
    List (Quote × Bool) → StoreState × List (List Ev)
  | [] => (st, [])
  | (q, rerr) :: rest =>
    let r := processTick errIds rerr q st
    let r2 := checkPriceAlerts errIds r.1 rest
    (r2.1, r.2 :: r2.2)

/-- The log lines one iteration of `checkPriceAlerts` emits for one
received quote.  The loop body (websocket_handlers.go lines 111-146)
contains no `log.Printf` call on any path: the `GetActiveAlerts` error
branch at lines 117-119 is a bare `if err != nil { continue }`, and the
range loop at lines 121-143 logs nothing either.  So both branches emit
no log line.  (Contrast the stream-error branch of `handleWebSocket` at
lines 73-75, which does call `log.Printf`.) -/
def processTickLogs (readErr : Bool) : List String :=
  if readErr then [] else []

/-- The log lines the `checkPriceAlerts` loop emits over a run, one
contribution per received quote. -/
def checkPriceAlertsLogs : List (Quote × Bool) → List String
  | [] => []
  | (_, rerr) :: rest => processTickLogs rerr ++ checkPriceAlertsLogs rest

/-- The shared quote channel of `handleWebSocket`: `quoteCh` is received
from by BOTH the outbound-writer loop (lines 93-106) and `checkPriceAlerts`
(line 115).  Go channel semantics deliver each sent value to exactly one
receiver; `sched` resolves the race tick by tick (`true` = the writer's
receive wins, `false` = the evaluator's).  Returns the two consumed
subsequences (writer's, evaluator's). -/
def routeTicks : List Bool → List Quote → List Quote × List Quote
  | s :: ss, q :: qs =>
    let r := routeTicks ss qs
    if s then (q :: r.1, r.2) else (r.1, q :: r.2)
  | _, _ => ([], [])

/-- The inbound liveness read loop of `handleWebSocket` (lines 43-48 for the
empty branch, lines 79-87 for the read goroutine): repeated `ReadMessage`
calls, each outcome `true` (a message) or `false` (an error); the loop exits
on the first error.  Given the finite list of outcomes the client produces,
returns whether the loop has exited (an unexhausted list means the loop is
still blocked in `ReadMessage`). -/
def readLoop : List Bool → Bool
  | [] => false
  | ok :: rest => if ok then readLoop rest else true

/-- An event written to the websocket connection by `handleWebSocket`:
the `{"type":"info"}` message, the `{"type":"error"}` message, or a quote
message from the outbound-writer loop. -/
inductive OutEvent where
  | info (msg : String)
  | errorMsg (msg : String)
  | quoteMsg (q : Quote)
deriving DecidableEq, Repr

/-- What one `handleWebSocket` invocation does, as observed from outside:
the events written to the connection in order, the number of
`provider.StreamQuotes` subscriptions opened, the log lines emitted, and
whether the handler has returned. -/
structure SessionOutcome where
  events : List OutEvent
  streamQuotesCalls : Nat
  logs : List String
  terminated : Bool
deriving DecidableEq, Repr

/-- The branch structure of `handleWebSocket` (websocket_handlers.go lines
39-106) after the config read succeeded.
* `trackedSymbols` — `cfg.TrackedSymbols`;
* `providerOk` — whether `market.NewProvider` succeeds (line 59);
* `streamErr` — whether `provider.StreamQuotes` in the pump goroutine
  returns a non-cancellation error (lines 71-76);
* `reads` — the outcomes the inbound read goroutine observes;
* `writerTicks` — the quotes the outbound-writer loop wins from the shared
  `quoteCh` race (its `routeTicks` share), each written as a quote message.

Empty symbol set (lines 39-50): one info event is written, no provider and
no subscription is created, and the handler sits in the read loop until a
read fails.  Provider construction failure (lines 59-63): one error event,
no subscription, immediate return.  Otherwise exactly one `StreamQuotes`
subscription is opened; a stream error is only logged (line 74) — nothing
is written to the connection and nothing cancels the context — so the
handler keeps running until the read goroutine sees a failed read and
cancels. -/
def handleWebSocket (trackedSymbols : List String) (providerOk : Bool)
    (streamErr : Bool) (reads : List Bool) (writerTicks : List Quote) :
    SessionOutcome :=
  if trackedSymbols.length = 0 then
    { events := [OutEvent.info "No symbols tracked"]
      streamQuotesCalls := 0
      logs := []
      terminated := readLoop reads }
  else if !providerOk then
    { events := [OutEvent.errorMsg "Provider error"]
      streamQuotesCalls := 0
      logs := []
      terminated := true }
  else
    { events := writerTicks.map OutEvent.quoteMsg
      streamQuotesCalls := 1
      logs := if streamErr then ["Stream error"] else []
      terminated := readLoop reads }

/-- Whether an outbound event is an error message. -/
def OutEvent.isError : OutEvent → Bool
  | OutEvent.errorMsg _ => true
  | _ => false

/-- `models.StockAnalysis` as consumed by the notification decision in
`handleAnalyze`: action, confidence (exact rational, Go `float64`; the
values compared in the handlers are exact decimals on which the two orders
agree) and the reasoning text. -/
structure Analysis where
  action : String
  confidence : ℚ
  reasoning : String
deriving DecidableEq, Repr

/-- The notification decision of `handleAnalyze`
(backend handlers.go lines 392-401): when the action is BUY or SELL and the
confidence is at least 0.7, exactly one notification is dispatched, built
from the action and the symbol; otherwise none. -/
def handleAnalyzeNotes (symbol : String) (an : Analysis) : List Notification :=
  if (an.action = "BUY" ∨ an.action = "SELL") ∧ (7 / 10 : ℚ) ≤ an.confidence then
    [{ kind := an.action.toLower ++ "_signal"
       title := an.action ++ " Signal: " ++ symbol
       message := an.reasoning
       symbol := symbol }]
  else []

/-- `sub` occurs contiguously inside `s`. -/
def containsStr (s sub : String) : Prop :=
  ∃ l r, s.data = l ++ sub.data ++ r

/-- Every dispatched notification is preceded in the event order by the
`TriggerAlert` call for the same alert. -/
def FlagBeforeNotify (l : List Ev) : Prop :=
  ∀ j id note, l.get? j = some (Ev.notify id note) →
    ∃ k ok, k < j ∧ l.get? k = some (Ev.flag id ok)

/-! ## Helper lemmas -/

theorem data_append (a b : String) : (a ++ b).data = a.data ++ b.data := rfl

theorem fbn_nil : FlagBeforeNotify [] := by
  intro j id note hj
  simp at hj

theorem fbn_append {l1 l2 : List Ev} (h1 : FlagBeforeNotify l1)
    (h2 : FlagBeforeNotify l2) : FlagBeforeNotify (l1 ++ l2) := by
  intro j id note hj
  by_cases hlt : j < l1.length
  · rw [List.get?_append hlt] at hj
    obtain ⟨k, ok, hk, hget⟩ := h1 j id note hj
    exact ⟨k, ok, hk, by rw [List.get?_append (lt_trans hk hlt)]; exact hget⟩
  · push_neg at hlt
    rw [List.get?_append_right hlt] at hj
    obtain ⟨k, ok, hk, hget⟩ := h2 _ id note hj
    refine ⟨l1.length + k, ok, by omega, ?_⟩
    rw [List.get?_append_right (by omega)]
    simpa using hget

theorem fbn_pair (id : Nat) (ok : Bool) (note : Notification) :
    FlagBeforeNotify [Ev.flag id ok, Ev.notify id note] := by
  intro j id' note' hj
  match j with
  | 0 => simp [List.get?] at hj
  | 1 =>
    simp [List.get?] at hj
    exact ⟨0, ok, by omega, by simp [List.get?, hj.1]⟩
  | n + 2 => simp [List.get?] at hj

theorem readLoop_eq_contains (reads : List Bool) :
    readLoop reads = reads.contains false := by
  induction reads with
  | nil => rfl
  | cons b bs ih => cases b <;> simp [readLoop, ih]

theorem routeTicks_nil (sched : List Bool) : routeTicks sched [] = ([], []) := by
  cases sched <;> rfl

theorem processAlert_shape (errIds : List Nat) (q : Quote) (st : StoreState)
    (a : Alert) :
    (processAlert errIds q st a).2 = [] ∨
      ∃ ok, (processAlert errIds q st a).2
        = [Ev.flag a.id ok, Ev.notify a.id (mkAlertNote a q)] := by
  unfold processAlert
  split
  · exact Or.inl rfl
  · split
    · exact Or.inr ⟨(triggerAlertOp errIds st a.id).2, rfl⟩
    · exact Or.inl rfl

theorem processAlerts_cons (errIds : List Nat) (q : Quote) (st : StoreState)
    (a : Alert) (rest : List Alert) :
    processAlerts errIds q st (a :: rest)
      = ((processAlerts errIds q (processAlert errIds q st a).1 rest).1,
         (processAlert errIds q st a).2 ++
           (processAlerts errIds q (processAlert errIds q st a).1 rest).2) := rfl

theorem fbn_processAlerts (errIds : List Nat) (q : Quote) :
    ∀ (alerts : List Alert) (st : StoreState),
      FlagBeforeNotify (processAlerts errIds q st alerts).2 := by
  intro alerts
  induction alerts with
  | nil => intro st; exact fbn_nil
  | cons a rest ih =>
    intro st
    rw [processAlerts_cons]
    refine fbn_append ?_ (ih _)
    rcases processAlert_shape errIds q st a with h | ⟨ok, h⟩ <;> rw [h]
    · exact fbn_nil
    · exact fbn_pair _ _ _

theorem fbn_processTick (errIds : List Nat) (rerr : Bool) (q : Quote)
    (st : StoreState) : FlagBeforeNotify (processTick errIds rerr q st).2 := by
  unfold processTick
  split
  · exact fbn_nil
  · exact fbn_processAlerts errIds q _ st

theorem checkPriceAlerts_cons (errIds : List Nat) (st : StoreState) (q : Quote)
    (rerr : Bool) (rest : List (Quote × Bool)) :
    checkPriceAlerts errIds st ((q, rerr) :: rest)
      = ((checkPriceAlerts errIds (processTick errIds rerr q st).1 rest).1,
         (processTick errIds rerr q st).2 ::
           (checkPriceAlerts errIds (processTick errIds rerr q st).1 rest).2) := rfl

theorem tick_no_trigger (errIds : List Nat) (aid : Nat) (sym : String)
    (T p : Int) (hp : p < T) :
    processTick errIds false ⟨sym, p⟩ ⟨[⟨aid, sym, "above", T, true⟩]⟩
      = (⟨[⟨aid, sym, "above", T, true⟩]⟩, []) := by
  simp [processTick, getActiveAlerts, processAlerts, processAlert, alertTriggered,
    not_le.mpr hp]

theorem tick_trigger (aid : Nat) (sym : String) (T p : Int) (hp : T ≤ p) :
    processTick [] false ⟨sym, p⟩ ⟨[⟨aid, sym, "above", T, true⟩]⟩
      = (⟨[⟨aid, sym, "above", T, false⟩]⟩,
         [Ev.flag aid true,
          Ev.notify aid (mkAlertNote ⟨aid, sym, "above", T, true⟩ ⟨sym, p⟩)]) := by
  simp [processTick, getActiveAlerts, processAlerts, processAlert, alertTriggered,
    triggerAlertOp, triggerAlert, hp]

theorem pre_phase (errIds : List Nat) (aid : Nat) (sym : String) (T : Int)
    (pre : List Int) (hpre : ∀ p ∈ pre, p < T) (rest : List (Quote × Bool)) :
    checkPriceAlerts errIds ⟨[⟨aid, sym, "above", T, true⟩]⟩
        (pre.map (fun p => (⟨sym, p⟩, false)) ++ rest)
      = ((checkPriceAlerts errIds ⟨[⟨aid, sym, "above", T, true⟩]⟩ rest).1,
         List.replicate pre.length [] ++
           (checkPriceAlerts errIds ⟨[⟨aid, sym, "above", T, true⟩]⟩ rest).2) := by
  induction pre with
  | nil => simp
  | cons p ps ih =>
    have hp : p < T := hpre p (by simp)
    simp only [List.map_cons, List.cons_append, checkPriceAlerts_cons,
      tick_no_trigger errIds aid sym T p hp, List.length_cons, List.replicate_succ]
    rw [ih (fun x hx => hpre x (by simp [hx]))]

theorem post_phase (errIds : List Nat) (st : StoreState)
    (h : getActiveAlerts st = []) (ticks : List (Quote × Bool)) :
    checkPriceAlerts errIds st ticks = (st, List.replicate ticks.length []) := by
  induction ticks with
  | nil => simp [checkPriceAlerts]
  | cons t ts ih =>
    obtain ⟨q, rerr⟩ := t
    have hpt : processTick errIds rerr q st = (st, []) := by
      cases rerr <;> simp [processTick, h, processAlerts]
    rw [checkPriceAlerts_cons, hpt]
    simp [ih, List.replicate_succ]

/-! ## Claim theorems -/

/-- C1: the claim says every tick reaches both the outbound writer and the
alert evaluator.  In the source both loops receive from the one shared
`quoteCh`, so each tick reaches exactly one of them: under every schedule
of the race, a tick sent once on the channel leaves at least one of the two
consumers with nothing — the writer's and the evaluator's consumed sets can
never both equal the sent set. -/
theorem shared_channel_not_fanout (sched : List Bool) (q : Quote) :
    (routeTicks sched [q]).1 = [] ∨ (routeTicks sched [q]).2 = [] := by
  cases sched with
  | nil => exact Or.inl rfl
  | cons s ss => cases s <;> simp [routeTicks, routeTicks_nil]

/-- Witness for C1 at a concrete tick and schedule. -/
theorem shared_channel_not_fanout_witness :
    (routeTicks [true] [⟨"ACME", 10000⟩]).1 = [] ∨
      (routeTicks [true] [⟨"ACME", 10000⟩]).2 = [] :=
  shared_channel_not_fanout [true] ⟨"ACME", 10000⟩

/-- C3: in every run of the alert-evaluation loop, every dispatched
notification for an alert is preceded in the event order by the
`TriggerAlert` call for that same alert occurrence. -/
theorem flag_precedes_notify (errIds : List Nat) (st : StoreState)
    (ticks : List (Quote × Bool)) :
    FlagBeforeNotify ((checkPriceAlerts errIds st ticks).2.join) := by
  induction ticks generalizing st with
  | nil => simpa [checkPriceAlerts] using fbn_nil
  | cons t ts ih =>
    obtain ⟨q, rerr⟩ := t
    rw [checkPriceAlerts_cons]
    simp only [List.join_cons]
    exact fbn_append (fbn_processTick _ _ _ _) (ih _)

/-- Witness for C3: in the concrete crossing run the notify event at
position 1 of the joined trace is preceded by its flag event. -/
theorem flag_precedes_notify_witness :
    ∃ k ok, k < 1 ∧
      ((checkPriceAlerts [] ⟨[⟨1, "ACME", "above", 10000, true⟩]⟩
          [(⟨"ACME", 10000⟩, false)]).2.join).get? k = some (Ev.flag 1 ok) :=
  flag_precedes_notify [] ⟨[⟨1, "ACME", "above", 10000, true⟩]⟩
    [(⟨"ACME", 10000⟩, false)] 1 1
    (mkAlertNote ⟨1, "ACME", "above", 10000, true⟩ ⟨"ACME", 10000⟩) (by decide)

/-- C5: the evaluator judges an alert satisfied exactly when the condition
is `above` and the price is at least the threshold, or the condition is
`below` and the price is at most the threshold; alerts for other symbols
and unsatisfied alerts are left untouched (no store mutation, no event). -/
theorem alert_satisfaction_criterion (errIds : List Nat) (q : Quote)
    (st : StoreState) (a : Alert) :
    (alertTriggered a q = true ↔
      ((a.condition = "above" ∧ a.price ≤ q.price) ∨
       (a.condition = "below" ∧ q.price ≤ a.price)))
    ∧ (a.symbol ≠ q.symbol → processAlert errIds q st a = (st, []))
    ∧ (alertTriggered a q = false → processAlert errIds q st a = (st, [])) := by
  refine ⟨?_, ?_, ?_⟩
  · by_cases h1 : a.condition = "above"
    · simp [alertTriggered, h1]
    · by_cases h2 : a.condition = "below" <;> simp [alertTriggered, h1, h2]
  · intro h
    unfold processAlert
    rw [if_pos h]
  · intro h
    unfold processAlert
    split
    · rfl
    · simp [h]

/-- Witness for C5: the implication conjunct discharged at a concrete
symbol-mismatched alert. -/
theorem alert_satisfaction_criterion_witness :
    processAlert [] ⟨"MSFT", 100⟩ ⟨[]⟩ ⟨2, "ACME", "above", 50, true⟩
      = (⟨[]⟩, []) :=
  (alert_satisfaction_criterion [] ⟨"MSFT", 100⟩ ⟨[]⟩
    ⟨2, "ACME", "above", 50, true⟩).2.1 (by decide)

/-- C8 counterexample: the claim says a failed `GetActiveAlerts` read is
logged.  At a concrete failed-read tick the loop does skip and continue —
no events, store untouched — but its log trace is empty: the error branch
is a bare `continue` with no log call, so nothing is logged. -/
theorem read_error_not_logged :
    checkPriceAlertsLogs [(⟨"ACME", 10000⟩, true)] = [] ∧
    checkPriceAlerts [] ⟨[⟨1, "ACME", "above", 10000, true⟩]⟩
        [(⟨"ACME", 10000⟩, true)]
      = (⟨[⟨1, "ACME", "above", 10000, true⟩]⟩, [[]]) := by
  decide

/-- C8 amended: a failed `GetActiveAlerts` read makes the evaluator skip
that tick only — no events, no store change — and continue the loop on the
remaining ticks exactly as it would have without the failed tick; the
error is silently discarded, contributing no log line. -/
theorem read_error_skips_tick_silently (errIds : List Nat) (st : StoreState)
    (q : Quote) (rest : List (Quote × Bool)) :
    (checkPriceAlerts errIds st ((q, true) :: rest)
      = ((checkPriceAlerts errIds st rest).1,
         [] :: (checkPriceAlerts errIds st rest).2))
    ∧ checkPriceAlertsLogs ((q, true) :: rest) = checkPriceAlertsLogs rest :=
  ⟨rfl, rfl⟩

/-- Witness for the C8 amended theorem at a concrete failed-read tick. -/
theorem read_error_skips_tick_silently_witness :
    (checkPriceAlerts [] ⟨[⟨1, "ACME", "above", 10000, true⟩]⟩
        [(⟨"ACME", 10000⟩, true)]
      = ((checkPriceAlerts [] ⟨[⟨1, "ACME", "above", 10000, true⟩]⟩ []).1,
         [] :: (checkPriceAlerts [] ⟨[⟨1, "ACME", "above", 10000, true⟩]⟩ []).2))
    ∧ checkPriceAlertsLogs [(⟨"ACME", 10000⟩, true)]
        = checkPriceAlertsLogs [] :=
  read_error_skips_tick_silently [] ⟨[⟨1, "ACME", "above", 10000, true⟩]⟩
    ⟨"ACME", 10000⟩ []

/-- C10: an active alert whose condition string is neither `"above"` nor
`"below"` is never judged satisfied: the evaluator leaves the store
untouched and emits no flag call and no notification for it. -/
theorem unknown_condition_untouched (errIds : List Nat) (q : Quote)
    (st : StoreState) (a : Alert) (h1 : a.condition ≠ "above")
    (h2 : a.condition ≠ "below") :
    processAlert errIds q st a = (st, []) := by
  unfold processAlert
  split
  · rfl
  · simp [alertTriggered, h1, h2]

/-- Witness for C10 at a concrete alert with condition `"between"`. -/
theorem unknown_condition_untouched_witness :
    processAlert [] ⟨"ACME", 10000⟩ ⟨[⟨7, "ACME", "between", 5000, true⟩]⟩
        ⟨7, "ACME", "between", 5000, true⟩
      = (⟨[⟨7, "ACME", "between", 5000, true⟩]⟩, []) :=
  unknown_condition_untouched [] _ _ _ (by decide) (by decide)

/-- C2: for a single active `above` alert, a tick sequence for its symbol
that stays below the threshold and then crosses to at least the threshold
produces, per tick, no events before the crossing, exactly one flag-and-
notify at the crossing tick, and no events afterwards; the one
notification's message contains the symbol and the crossing price. -/
theorem above_crossing_fires_once (aid : Nat) (sym : String) (T : Int)
    (pre post : List Int) (p0 : Int) (hpre : ∀ p ∈ pre, p < T)
    (hp0 : T ≤ p0) (_hpost : ∀ p ∈ post, T ≤ p) :
    (checkPriceAlerts [] ⟨[⟨aid, sym, "above", T, true⟩]⟩
        ((pre ++ p0 :: post).map (fun p => (⟨sym, p⟩, false)))).2
      = List.replicate pre.length [] ++
        [Ev.flag aid true,
         Ev.notify aid (mkAlertNote ⟨aid, sym, "above", T, true⟩ ⟨sym, p0⟩)] ::
        List.replicate post.length []
    ∧ containsStr (mkAlertNote ⟨aid, sym, "above", T, true⟩ ⟨sym, p0⟩).message sym
    ∧ containsStr (mkAlertNote ⟨aid, sym, "above", T, true⟩ ⟨sym, p0⟩).message
        (formatPrice p0) := by
  refine ⟨?_, ?_, ?_⟩
  · rw [List.map_append, pre_phase [] aid sym T pre hpre]
    simp only [List.map_cons]
    rw [checkPriceAlerts_cons, tick_trigger aid sym T p0 hp0]
    rw [post_phase [] _ (by simp [getActiveAlerts]) _]
    simp
  · exact ⟨[], (" is now $" ++ formatPrice p0 ++ " (above $" ++
      formatPrice T ++ ")").data, by simp [mkAlertNote, data_append]⟩
  · exact ⟨(sym ++ " is now $").data, (" (above $" ++ formatPrice T ++
      ")").data, by simp [mkAlertNote, data_append]⟩

/-- Witness for C2: the spec scenario — alert (ACME, above, 100.00), tick
prices 98.50, 99.90, 100.00 — fires exactly once, at the third tick, with
message mentioning ACME and 100.00. -/
theorem above_crossing_fires_once_witness :
    (checkPriceAlerts [] ⟨[⟨1, "ACME", "above", 10000, true⟩]⟩
        (([9850, 9990] ++ 10000 :: []).map (fun p => (⟨"ACME", p⟩, false)))).2
      = List.replicate ([9850, 9990] : List Int).length [] ++
        [Ev.flag 1 true,
         Ev.notify 1 (mkAlertNote ⟨1, "ACME", "above", 10000, true⟩ ⟨"ACME", 10000⟩)] ::
        List.replicate ([] : List Int).length []
    ∧ containsStr (mkAlertNote ⟨1, "ACME", "above", 10000, true⟩ ⟨"ACME", 10000⟩).message "ACME"
    ∧ containsStr (mkAlertNote ⟨1, "ACME", "above", 10000, true⟩ ⟨"ACME", 10000⟩).message
        (formatPrice 10000) :=
  above_crossing_fires_once 1 "ACME" 10000 [9850, 9990] [] 10000
    (by decide) (by decide) (by decide)

/-- C4 counterexample: with a store whose `TriggerAlert` fails for alert 1,
a satisfying tick still dispatches the notification — the flag event
records the failure (`false`) yet the notify event follows, because the
code discards `TriggerAlert`'s error. -/
theorem trigger_error_still_notifies :
    (checkPriceAlerts [1] ⟨[⟨1, "ACME", "above", 10000, true⟩]⟩
        [(⟨"ACME", 10000⟩, false)]).2
      = [[Ev.flag 1 false,
          Ev.notify 1 (mkAlertNote ⟨1, "ACME", "above", 10000, true⟩ ⟨"ACME", 10000⟩)]] := by
  decide

/-- C4 amended: for every satisfied alert the evaluator calls
`TriggerAlert` and then dispatches the notification unconditionally — the
notify event is emitted whether or not the flag mutation succeeded. -/
theorem notify_despite_flag_error (errIds : List Nat) (q : Quote)
    (st : StoreState) (a : Alert) (hsym : a.symbol = q.symbol)
    (htrig : alertTriggered a q = true) :
    (processAlert errIds q st a).2
      = [Ev.flag a.id (decide (a.id ∉ errIds)),
         Ev.notify a.id (mkAlertNote a q)] := by
  unfold processAlert
  rw [if_neg (fun hn => hn hsym), if_pos htrig]
  by_cases hmem : a.id ∈ errIds <;> simp [triggerAlertOp, hmem]

/-- Witness for the C4 amended theorem at a concrete erroring store. -/
theorem notify_despite_flag_error_witness :
    (processAlert [1] ⟨"ACME", 10000⟩ ⟨[⟨1, "ACME", "above", 10000, true⟩]⟩
        ⟨1, "ACME", "above", 10000, true⟩).2
      = [Ev.flag 1 (decide ((1 : Nat) ∉ ([1] : List Nat))),
         Ev.notify 1 (mkAlertNote ⟨1, "ACME", "above", 10000, true⟩ ⟨"ACME", 10000⟩)] :=
  notify_despite_flag_error [1] _ _ _ rfl (by decide)

/-- C6: `handleAnalyze` dispatches a notification iff the action is BUY or
SELL and the confidence is at least 0.7; at most one notification is
produced and its title contains the action and the symbol.  Includes the
spec scenarios: SELL at 0.65 dispatches nothing; SELL at 0.71 dispatches
exactly one notification whose title contains "SELL" and the symbol. -/
theorem analysis_notification_policy (symbol : String) (an : Analysis) :
    ((handleAnalyzeNotes symbol an ≠ []) ↔
      ((an.action = "BUY" ∨ an.action = "SELL") ∧ (7 / 10 : ℚ) ≤ an.confidence))
    ∧ (handleAnalyzeNotes symbol an).length ≤ 1
    ∧ (∀ note ∈ handleAnalyzeNotes symbol an,
        containsStr note.title an.action ∧ containsStr note.title symbol)
    ∧ handleAnalyzeNotes "ACME" ⟨"SELL", 65 / 100, "r"⟩ = []
    ∧ (∃ note, handleAnalyzeNotes "ACME" ⟨"SELL", 71 / 100, "r"⟩ = [note] ∧
        note.title = "SELL Signal: ACME" ∧ containsStr note.title "SELL" ∧
        containsStr note.title "ACME") := by
  refine ⟨?_, ?_, ?_, ?_, ?_⟩
  · unfold handleAnalyzeNotes
    split
    · rename_i h; simpa using h
    · rename_i h; simpa using h
  · unfold handleAnalyzeNotes
    split <;> simp
  · unfold handleAnalyzeNotes
    split
    · intro note hnote
      simp only [List.mem_singleton] at hnote
      subst hnote
      constructor
      · exact ⟨[], (" Signal: " ++ symbol).data, by simp [data_append]⟩
      · exact ⟨(an.action ++ " Signal: ").data, [], by simp [data_append]⟩
    · intro note hnote
      simp at hnote
  · norm_num [handleAnalyzeNotes]
  · have h : handleAnalyzeNotes "ACME" ⟨"SELL", 71 / 100, "r"⟩
        = [{ kind := ("SELL" : String).toLower ++ "_signal"
             title := "SELL" ++ " Signal: " ++ "ACME"
             message := "r", symbol := "ACME" }] := by
      norm_num [handleAnalyzeNotes]
    refine ⟨_, h, rfl, ?_, ?_⟩
    · exact ⟨[], " Signal: ACME".data, by decide⟩
    · exact ⟨"SELL Signal: ".data, [], by decide⟩

/-- Witness for C6: a BUY signal at confidence 0.9 dispatches. -/
theorem analysis_notification_policy_witness :
    handleAnalyzeNotes "NVDA" ⟨"BUY", 9 / 10, "strong"⟩ ≠ [] :=
  (analysis_notification_policy "NVDA" ⟨"BUY", 9 / 10, "strong"⟩).1.mpr
    ⟨Or.inl rfl, by norm_num⟩

/-- C7: a session started with an empty tracked-symbol set writes exactly
one informational event, opens no upstream subscription, and stays alive
in the liveness read loop, terminating exactly when one of the client's
reads fails. -/
theorem empty_symbols_idle_session (providerOk streamErr : Bool)
    (reads : List Bool) (writerTicks : List Quote) :
    handleWebSocket [] providerOk streamErr reads writerTicks
      = { events := [OutEvent.info "No symbols tracked"]
          streamQuotesCalls := 0
          logs := []
          terminated := reads.contains false } := by
  simp [handleWebSocket, readLoop_eq_contains]

/-- Witness for C7 at a concrete read sequence. -/
theorem empty_symbols_idle_session_witness :
    handleWebSocket [] true false [true, false] []
      = { events := [OutEvent.info "No symbols tracked"]
          streamQuotesCalls := 0
          logs := []
          terminated := [true, false].contains false } :=
  empty_symbols_idle_session true false [true, false] []

/-- C9 counterexample: a session with a non-empty symbol set whose upstream
stream reports an unrecoverable error (and whose client stays connected)
opens its subscription, writes NO error event to the connection — the
error only reaches the log — and does not terminate, contradicting the
claim that such a session sends a single error event and terminates. -/
theorem stream_error_not_surfaced :
    (handleWebSocket ["ACME"] true true [] []).streamQuotesCalls = 1 ∧
    (handleWebSocket ["ACME"] true true [] []).events = [] ∧
    (handleWebSocket ["ACME"] true true [] []).terminated = false ∧
    (handleWebSocket ["ACME"] true true [] []).logs = ["Stream error"] := by
  decide

/-- C9 amended: for a non-empty symbol set, if provider construction fails
the session sends a single error event and terminates without opening a
subscription; otherwise exactly one upstream subscription is opened, and an
unrecoverable stream error is only logged — no error event reaches the
connection and the session keeps running until the client's read fails. -/
theorem nonempty_session_behavior (ts : List String) (streamErr : Bool)
    (reads : List Bool) (writerTicks : List Quote) (h : ts ≠ []) :
    (handleWebSocket ts false streamErr reads writerTicks
        = { events := [OutEvent.errorMsg "Provider error"]
            streamQuotesCalls := 0
            logs := []
            terminated := true })
    ∧ (handleWebSocket ts true streamErr reads writerTicks
        = { events := writerTicks.map OutEvent.quoteMsg
            streamQuotesCalls := 1
            logs := if streamErr then ["Stream error"] else []
            terminated := reads.contains false })
    ∧ (handleWebSocket ts true streamErr reads writerTicks).events.filter
        OutEvent.isError = [] := by
  have hlen : ¬ ts.length = 0 := by simpa using h
  refine ⟨?_, ?_, ?_⟩
  · simp [handleWebSocket, hlen]
  · simp [handleWebSocket, hlen, readLoop_eq_contains]
  · simp [handleWebSocket, hlen, List.filter_map, Function.comp, OutEvent.isError]

/-- Witness for the C9 amended theorem at a concrete session. -/
theorem nonempty_session_behavior_witness :
    (handleWebSocket ["ACME"] false true [true, false] [⟨"ACME", 10000⟩]
        = { events := [OutEvent.errorMsg "Provider error"]
            streamQuotesCalls := 0
            logs := []
            terminated := true })
    ∧ (handleWebSocket ["ACME"] true true [true, false] [⟨"ACME", 10000⟩]
        = { events := [⟨"ACME", 10000⟩].map OutEvent.quoteMsg
            streamQuotesCalls := 1
            logs := if true then ["Stream error"] else []
            terminated := [true, false].contains false })
    ∧ (handleWebSocket ["ACME"] true true [true, false]
        [⟨"ACME", 10000⟩]).events.filter OutEvent.isError = [] :=
  nonempty_session_behavior ["ACME"] true [true, false] [⟨"ACME", 10000⟩]
    (by decide)

